import Mathlib

/-!
Verification development for the single-symbol position-protection reconciler.

The Go source is embedded shallowly: venue-reported decimal strings are
modelled as exact rationals (strconv.ParseFloat results), the exchange
gateway is modelled as explicit inputs/outputs (the open-order listing is a
list argument, order placement and cancellation outcomes are oracles), and
each reconciliation routine becomes a pure function from its inputs and the
per-symbol mutable state it reads to the state it writes and the venue calls
it issues. Wall-clock timestamps are rationals measured in seconds.
-/

namespace Protect

/-- Order side, as in the futures SDK (SideTypeBuy / SideTypeSell). -/
inductive Side where
  | buy
  | sell
deriving DecidableEq, Repr

/-- Position side (PositionSideTypeLong / PositionSideTypeShort). -/
inductive PositionSide where
  | long
  | short
deriving DecidableEq, Repr

/-- Order type: the three order types the core uses (OrderTypeLimit,
OrderTypeStopMarket, OrderTypeMarket). -/
inductive OrderType where
  | limit
  | stopMarket
  | market
deriving DecidableEq, Repr

/-- Time-in-force; the core only ever sets GTC (TimeInForceTypeGTC). -/
inductive TimeInForce where
  | gtc
deriving DecidableEq, Repr

/-- A resting or outgoing order. Numeric fields are the parsed values of the
venue's decimal strings (OrigQuantity, Price, StopPrice). For orders the core
creates, orderId is venue-assigned and is modelled as 0, and reduceOnly is
false because the creation code never sets the ReduceOnly flag. -/
structure Order where
  orderId : Nat
  side : Side
  positionSide : PositionSide
  type : OrderType
  origQuantity : ℚ
  price : ℚ
  stopPrice : ℚ
  reduceOnly : Bool
  tif : Option TimeInForce
deriving DecidableEq, Repr

/-- A position-risk snapshot (futures.PositionRisk), with PositionAmt,
EntryPrice and UnRealizedProfit already parsed from their decimal strings. -/
structure PositionRisk where
  symbol : String
  positionAmt : ℚ
  entryPrice : ℚ
  unRealizedProfit : ℚ
deriving DecidableEq, Repr

/-- Quantity comparison used everywhere in the source:
math.Abs(qty - math.Abs(amt)) <= 0.0001. -/
def qtyMatches (qty amt : ℚ) : Bool :=
  decide (abs (qty - abs amt) ≤ 1 / 10000)

/-- An order counts as a protective (take-profit or stop-loss) order for
cancellation purposes in the part_002/part_003 variants:
(Type == LIMIT && ReduceOnly) || Type == STOP_MARKET. -/
def isTPSL (o : Order) : Bool :=
  (o.type == OrderType.limit && o.reduceOnly) || o.type == OrderType.stopMarket

/-- Decision made per order by the selective cancelAllTPSL (part_003): a
protective order is cancelled unless a non-zero currentAmt was supplied and
the order quantity matches |currentAmt| within 0.0001, in which case it is
skipped. -/
def shouldCancel (currentAmt : ℚ) (o : Order) : Bool :=
  isTPSL o && !(decide (currentAmt ≠ 0) && qtyMatches o.origQuantity currentAmt)

/-- Selective-cancel variant of cancelAllTPSL (part_003 lines 37-68): walks
the open-order listing and cancels every protective order whose quantity does
not match the supplied position quantity; matching protective orders and
non-protective orders are left resting. Cancel calls that fail are logged and
skipped in the source; cancellation outcomes do not feed back into the
decision, so the embedding returns the (remaining, cancelled) partition of
the listing. -/
def cancelAllTPSL (currentAmt : ℚ) (orders : List Order) : List Order × List Order :=
  (orders.filter (fun o => !(shouldCancel currentAmt o)),
   orders.filter (fun o => shouldCancel currentAmt o))

/-- Zero-sentinel high-water-mark update (part_000 lines 238-243, identical
in part_002 and part_003): the maxProfit map entry is read with Go's zero
default, so a stored value of exactly 0 is indistinguishable from an absent
entry and is overwritten by the next observation unconditionally. -/
def updateMaxProfitZS (m unPnl : ℚ) : ℚ :=
  if m = 0 ∨ m < unPnl then unPnl else m

/-- Presence-checked high-water-mark update (part_001 lines 236-241): the
entry is created on first sight of an open position and afterwards only ever
raised. -/
def updateMaxProfit1 (mp : Option ℚ) (unPnl : ℚ) : ℚ :=
  match mp with
  | none => unPnl
  | some v => if v < unPnl then unPnl else v

/-- Market close order issued by the protective exit: sell/long-close for a
long position, buy/short-close for a short one, full absolute quantity. -/
def mkCloseOrder (amt : ℚ) : Order :=
  { orderId := 0
    side := if amt < 0 then Side.buy else Side.sell
    positionSide := if amt < 0 then PositionSide.short else PositionSide.long
    type := OrderType.market
    origQuantity := abs amt
    price := 0
    stopPrice := 0
    reduceOnly := false
    tif := none }

/-- One observation of the protective-exit monitor (part_001
checkProtectiveStopProfit, lines 227-272): on a flat position the maxProfit
entry is deleted; otherwise the high-water mark is updated and, when the peak
reached at least 200 and the current PnL fell to at most half the peak (the
source literal 0.5), a market close for the full quantity is issued and the
entry is deleted. Returns (new maxProfit entry, issued market order). -/
def monitorStep (mp : Option ℚ) (p : PositionRisk) : Option ℚ × Option Order :=
  if p.positionAmt = 0 then (none, none)
  else
    let m := updateMaxProfit1 mp p.unRealizedProfit
    if 200 ≤ m ∧ p.unRealizedProfit ≤ m * (1 / 2) then
      (none, some (mkCloseOrder p.positionAmt))
    else (some m, none)

/-- Protective state (maxProfit entry) after a sequence of unrealized-PnL
observations on a position of fixed non-flat size amt, part_001 variant. -/
def runMonitor (amt : ℚ) (l : List ℚ) : Option ℚ :=
  l.foldl (fun mp u => (monitorStep mp ⟨"SOLUSDC", amt, 0, u⟩).1) none

/-- Stored maxProfit value after a sequence of observations under the
zero-sentinel update of part_000/002/003 (map read defaults to 0). -/
def runMonitorZS (l : List ℚ) : ℚ :=
  l.foldl updateMaxProfitZS 0

/-- One monitor observation threaded with a flag recording whether any
market close has been issued so far in the run. -/
def monitorTraceStep (amt : ℚ) (s : Option ℚ × Bool) (u : ℚ) : Option ℚ × Bool :=
  let r := monitorStep s.1 ⟨"SOLUSDC", amt, 0, u⟩
  (r.1, s.2 || r.2.isSome)

/-- Protective state after a sequence of observations together with a flag
telling whether the drawdown trigger fired (a market close was issued) at
any step of the run. -/
def runMonitorT (amt : ℚ) (l : List ℚ) : Option ℚ × Bool :=
  l.foldl (monitorTraceStep amt) (none, false)

/-- Go's math.Round: nearest integer, ties rounded away from zero. -/
def goRound (x : ℚ) : ℤ :=
  if x < 0 then -(Int.floor (-x + 1 / 2)) else Int.floor (x + 1 / 2)

/-- roundToTickSize from the source: math.Round(price/tickSize) * tickSize. -/
def roundToTickSize (price tickSize : ℚ) : ℚ :=
  (goRound (price / tickSize) : ℚ) * tickSize

/-- Stop-market order created by checkAndSetStopLoss (part_000 lines 93-127,
identically part_001 lines 106-139 and part_003 lines 106-140): closing side
and position side chosen by the sign of the position, stop price one point
below (long) or above (short) the entry price, rounded to the 0.01 tick,
quantity the absolute position size. -/
def mkStopLossOrderR (amt entry : ℚ) : Order :=
  if 0 < amt then
    { orderId := 0, side := Side.sell, positionSide := PositionSide.long,
      type := OrderType.stopMarket, origQuantity := abs amt, price := 0,
      stopPrice := roundToTickSize (entry - 1) (1 / 100), reduceOnly := false,
      tif := none }
  else
    { orderId := 0, side := Side.buy, positionSide := PositionSide.short,
      type := OrderType.stopMarket, origQuantity := abs amt, price := 0,
      stopPrice := roundToTickSize (entry + 1) (1 / 100), reduceOnly := false,
      tif := none }

/-- GTC limit take-profit order created by checkAndSetTakeProfit (part_001
lines 186-225): closing side, two points above (long) or below (short) the
entry price, rounded to the 0.01 tick, quantity the absolute position size. -/
def mkTakeProfitOrderR (amt entry : ℚ) : Order :=
  if 0 < amt then
    { orderId := 0, side := Side.sell, positionSide := PositionSide.long,
      type := OrderType.limit, origQuantity := abs amt,
      price := roundToTickSize (entry + 2) (1 / 100), stopPrice := 0,
      reduceOnly := false, tif := some TimeInForce.gtc }
  else
    { orderId := 0, side := Side.buy, positionSide := PositionSide.short,
      type := OrderType.limit, origQuantity := abs amt,
      price := roundToTickSize (entry - 2) (1 / 100), stopPrice := 0,
      reduceOnly := false, tif := some TimeInForce.gtc }

/-- Detection of a position or entry-price change since the previous cycle
(part_003 lines 176-198, tolerances 0.0001 and 0.01); an absent lastPosition
entry reads as quantity 0 and entry price 0. -/
def positionChanged (lastPos : Option PositionRisk) (amt entry : ℚ) : Bool :=
  let lastAmt : ℚ := match lastPos with | some lp => lp.positionAmt | none => 0
  let lastEntry : ℚ := match lastPos with | some lp => lp.entryPrice | none => 0
  decide (1 / 10000 < abs (lastAmt - amt)) || decide (1 / 100 < abs (lastEntry - entry))

/-- Validity test for a resting stop-loss in part_003 (lines 203-214, same
test in part_000/part_002): quantity matches the position within 0.0001 and
the type is STOP_MARKET — side and price are not inspected. -/
def isValidSL (amt : ℚ) (o : Order) : Bool :=
  qtyMatches o.origQuantity amt && o.type == OrderType.stopMarket

/-- Validity test for a resting take-profit in part_003 (lines 203-214):
quantity matches within 0.0001 and the type is LIMIT — side, price and the
reduce-only flag are not inspected. -/
def isValidTP (amt : ℚ) (o : Order) : Bool :=
  qtyMatches o.origQuantity amt && o.type == OrderType.limit

/-- Stop-market order created inline by part_003 checkProtectiveStopProfit
(lines 237-270): same side/quantity logic as mkStopLossOrderR but the stop
price entry−1 (long) or entry+1 (short) is sent without the explicit
roundToTickSize call (only the two-decimal wire format). -/
def mkStopLossOrder3 (amt entry : ℚ) : Order :=
  if 0 < amt then
    { orderId := 0, side := Side.sell, positionSide := PositionSide.long,
      type := OrderType.stopMarket, origQuantity := abs amt, price := 0,
      stopPrice := entry - 1, reduceOnly := false, tif := none }
  else
    { orderId := 0, side := Side.buy, positionSide := PositionSide.short,
      type := OrderType.stopMarket, origQuantity := abs amt, price := 0,
      stopPrice := entry + 1, reduceOnly := false, tif := none }

/-- GTC limit take-profit order created inline by part_003
checkProtectiveStopProfit (lines 272-307): entry+2 (long) or entry−2
(short), no explicit tick rounding. -/
def mkTakeProfitOrder3 (amt entry : ℚ) : Order :=
  if 0 < amt then
    { orderId := 0, side := Side.sell, positionSide := PositionSide.long,
      type := OrderType.limit, origQuantity := abs amt, price := entry + 2,
      stopPrice := 0, reduceOnly := false, tif := some TimeInForce.gtc }
  else
    { orderId := 0, side := Side.buy, positionSide := PositionSide.short,
      type := OrderType.limit, origQuantity := abs amt, price := entry - 2,
      stopPrice := 0, reduceOnly := false, tif := some TimeInForce.gtc }

/-- Outcome of one order-reconciliation pass: the orders resting afterwards,
the orders the pass created, and the orders it cancelled. -/
structure ReconcileResult where
  finalOrders : List Order
  created : List Order
  cancelled : List Order
deriving DecidableEq, Repr

/-- Order-reconciliation portion of part_003 checkProtectiveStopProfit
(lines 145-308): on a flat position all protective orders are cancelled; on
an open position, a detected position/entry change first runs the selective
cancel, the re-listed orders (modelled as exactly the uncancelled ones) are
scanned for a valid stop-loss and take-profit, and each missing leg is then
placed. Placements are modelled as succeeding; the failure path is covered
by placeBothLegs. -/
def reconcileOrders (lastPos : Option PositionRisk) (p : PositionRisk)
    (orders : List Order) : ReconcileResult :=
  if p.positionAmt = 0 then
    { finalOrders := (cancelAllTPSL 0 orders).1
      created := []
      cancelled := (cancelAllTPSL 0 orders).2 }
  else
    let afterCancel :=
      if positionChanged lastPos p.positionAmt p.entryPrice then
        cancelAllTPSL p.positionAmt orders
      else (orders, [])
    let hasValidStopLoss := afterCancel.1.any (isValidSL p.positionAmt)
    let hasValidTakeProfit := afterCancel.1.any (isValidTP p.positionAmt)
    let created :=
      (if hasValidStopLoss then [] else [mkStopLossOrder3 p.positionAmt p.entryPrice]) ++
      (if hasValidTakeProfit then [] else [mkTakeProfitOrder3 p.positionAmt p.entryPrice])
    { finalOrders := afterCancel.1 ++ created
      created := created
      cancelled := afterCancel.2 }

/-- Number of resting orders of a given type. -/
def countType (t : OrderType) (orders : List Order) : Nat :=
  (orders.filter (fun o => o.type == t)).length

/-- Outcome of the joint placement phase of one reconciliation pass: which
legs were attempted and the error returned from the pass, if any. -/
structure PlacePass where
  slAttempted : Bool
  tpAttempted : Bool
  err : Option String
deriving DecidableEq, Repr

/-- Placement phase of part_002 checkProtectiveStopProfit (lines 167-236,
same control flow in part_003 lines 227-308): when either leg is missing the
pass places the stop-loss first and, if that create call returns a venue
error, returns immediately — the take-profit create is then never reached in
this pass. slFails / tpFails are the venue outcomes of the two create
calls. -/
def placeBothLegs (hasValidStopLoss hasValidTakeProfit slFails tpFails : Bool) :
    PlacePass :=
  if !hasValidStopLoss || !hasValidTakeProfit then
    if slFails then
      { slAttempted := true, tpAttempted := false, err := some "create stop-loss failed" }
    else if tpFails then
      { slAttempted := true, tpAttempted := true, err := some "create take-profit failed" }
    else
      { slAttempted := true, tpAttempted := true, err := none }
  else
    { slAttempted := false, tpAttempted := false, err := none }

/-- Outcome of one tick of the part_001 run loop for a non-flat position. -/
structure RunTick1 where
  monitorAttempted : Bool
  tpAttempted : Bool
  slAttempted : Bool
  logged : List String
deriving DecidableEq, Repr

/-- One tick of the part_001 run loop (lines 287-318): the monitor,
checkAndSetTakeProfit and checkAndSetStopLoss are three separate calls; each
call's error is only logged and the next call is still made. -/
def part1RunTick (monitorErr tpErr slErr : Option String) : RunTick1 :=
  let l1 := match monitorErr with | some e => [e] | none => []
  let l2 := match tpErr with | some e => [e] | none => []
  let l3 := match slErr with | some e => [e] | none => []
  { monitorAttempted := true, tpAttempted := true, slAttempted := true,
    logged := l1 ++ l2 ++ l3 }

/-- Per-symbol position cache of the Trader (trader.go lines 17-21):
lastPosition and lastUpdate maps; an absent key is none. -/
structure CacheState where
  lastPosition : String → Option PositionRisk
  lastUpdate : String → Option ℚ

/-- Result of one GetPosition call: the returned value or error, the cache
afterwards, and whether the gateway position-risk listing was consulted. -/
structure GetPositionResult where
  result : Except String PositionRisk
  cache : CacheState
  gatewayCalled : Bool

/-- Flat position synthesized when the symbol is absent from the gateway
listing: futures.PositionRisk with Symbol set and PositionAmt "0". -/
def flatPosition (symbol : String) : PositionRisk :=
  ⟨symbol, 0, 0, 0⟩

/-- Cache mutation performed by GetPosition: store the snapshot and the
current timestamp under the symbol key. -/
def storeCache (s : CacheState) (symbol : String) (p : PositionRisk) (now : ℚ) :
    CacheState :=
  ⟨fun sym => if sym = symbol then some p else s.lastPosition sym,
   fun sym => if sym = symbol then some now else s.lastUpdate sym⟩

/-- The cache-validity test of GetPosition (trader.go lines 115-121): both
map entries present and the snapshot is younger than 5 seconds. -/
def cacheFresh (s : CacheState) (symbol : String) (now : ℚ) : Bool :=
  match s.lastPosition symbol, s.lastUpdate symbol with
  | some _, some lu => decide (now - lu < 5)
  | _, _ => false

/-- Cache-miss path of GetPosition (trader.go lines 123-141): on a gateway
error nothing is stored and the error is returned; otherwise the first
listing entry for the symbol is cached and returned, and when the symbol is
absent a flat position is cached but the call returns the "position not
found" error. -/
def getPositionFetch (s : CacheState) (symbol : String) (now : ℚ)
    (gw : Except String (List PositionRisk)) : GetPositionResult :=
  match gw with
  | Except.error e => ⟨Except.error e, s, true⟩
  | Except.ok positions =>
    match positions.find? (fun p => p.symbol == symbol) with
    | some p => ⟨Except.ok p, storeCache s symbol p now, true⟩
    | none =>
      ⟨Except.error "position not found",
       storeCache s symbol (flatPosition symbol) now, true⟩

/-- GetPosition (trader.go lines 113-142): serve the cached snapshot when it
is younger than 5 seconds, otherwise consult the gateway listing. The gw
argument is the outcome the gateway would return if consulted. -/
def getPosition (s : CacheState) (symbol : String) (now : ℚ)
    (gw : Except String (List PositionRisk)) : GetPositionResult :=
  match s.lastPosition symbol, s.lastUpdate symbol with
  | some lp, some lu =>
    if now - lu < 5 then ⟨Except.ok lp, s, false⟩
    else getPositionFetch s symbol now gw
  | some _, none => getPositionFetch s symbol now gw
  | none, _ => getPositionFetch s symbol now gw

/-- The cache of a freshly constructed Trader: both maps empty. -/
def emptyCache : CacheState :=
  ⟨fun _ => none, fun _ => none⟩

/-- SetStopLoss (trader.go lines 52-75): a parsed position quantity of
exactly zero returns nil without any venue call; otherwise a stop-market
order on the closing side for the absolute quantity is sent and the venue's
answer is returned. The pair is (order sent, returned error). -/
def setStopLoss (amt stopPrice : ℚ) (venue : Order → Except String Unit) :
    Option Order × Except String Unit :=
  if amt = 0 then (none, Except.ok ())
  else
    let o : Order :=
      { orderId := 0
        side := if amt < 0 then Side.buy else Side.sell
        positionSide := if amt < 0 then PositionSide.short else PositionSide.long
        type := OrderType.stopMarket
        origQuantity := abs amt
        price := 0
        stopPrice := stopPrice
        reduceOnly := false
        tif := none }
    (some o, venue o)

/-- SetTakeProfit (trader.go lines 78-102): zero parsed quantity returns nil
with no venue call; otherwise a GTC limit order on the closing side for the
absolute quantity is sent. -/
def setTakeProfit (amt price : ℚ) (venue : Order → Except String Unit) :
    Option Order × Except String Unit :=
  if amt = 0 then (none, Except.ok ())
  else
    let o : Order :=
      { orderId := 0
        side := if amt < 0 then Side.buy else Side.sell
        positionSide := if amt < 0 then PositionSide.short else PositionSide.long
        type := OrderType.limit
        origQuantity := abs amt
        price := price
        stopPrice := 0
        reduceOnly := false
        tif := some TimeInForce.gtc }
    (some o, venue o)

/-- Long position of quantity 1 at entry 100 used in concrete runs. -/
def c1Position : PositionRisk := ⟨"SOLUSDC", 1, 100, 0⟩

/-- A resting sell stop-market of quantity 1 (matches c1Position). -/
def c1StopA : Order :=
  ⟨21, Side.sell, PositionSide.long, OrderType.stopMarket, 1, 0, 99, false, none⟩

/-- A second, duplicate resting sell stop-market of quantity 1. -/
def c1StopB : Order :=
  ⟨22, Side.sell, PositionSide.long, OrderType.stopMarket, 1, 0, 98, false, none⟩

/-- A resting sell limit of quantity 1 (matches c1Position). -/
def c1TakeProfit : Order :=
  ⟨23, Side.sell, PositionSide.long, OrderType.limit, 1, 102, 0, false, some TimeInForce.gtc⟩

/-- Long position of quantity 1 at entry 100 for the direction counterexample. -/
def c4Position : PositionRisk := ⟨"SOLUSDC", 1, 100, 0⟩

/-- A buy-side stop-market of matching quantity with stop price 150, above the
entry price 100 of the long c4Position: the opening side, not the closing
side. -/
def c4WrongSideStop : Order :=
  ⟨11, Side.buy, PositionSide.long, OrderType.stopMarket, 1, 0, 150, false, none⟩

/-- A matching resting sell limit of quantity 1 at 102. -/
def c4RestingTP : Order :=
  ⟨12, Side.sell, PositionSide.long, OrderType.limit, 1, 102, 0, false, some TimeInForce.gtc⟩

/-- Claim C10: in the selective-cancel variant, when cancelAllTPSL is called
with a non-zero current position quantity, every resting limit-reduce-only or
stop-market order whose origQuantity matches the absolute position quantity
within 0.0001 is skipped and left resting; only protective orders with
mismatched quantity are cancelled. -/
theorem C10_selective_cancel (currentAmt : ℚ) (orders : List Order) (o : Order)
    (h : currentAmt ≠ 0) (ho : o ∈ orders) :
    (o ∈ (cancelAllTPSL currentAmt orders).2 ↔
       isTPSL o = true ∧ qtyMatches o.origQuantity currentAmt = false) ∧
    (o ∈ (cancelAllTPSL currentAmt orders).1 ↔
       ¬(isTPSL o = true ∧ qtyMatches o.origQuantity currentAmt = false)) := by
  have hd : decide (currentAmt ≠ 0) = true := by simpa using h
  rcases hb : isTPSL o with _ | _ <;>
    rcases hq : qtyMatches o.origQuantity currentAmt with _ | _ <;>
      simp [cancelAllTPSL, List.mem_filter, ho, shouldCancel, hd, hb, hq]

/-- Witness for C10: with a position of 1.5, a stop-market order of quantity
2 is cancelled while a reduce-only limit order of quantity 1.5 is kept. -/
theorem C10_selective_cancel_w :
    ((1.5 : ℚ) ≠ 0) ∧
    (⟨7, Side.sell, PositionSide.long, OrderType.stopMarket, 2, 0, 99, false, none⟩ ∈
      (cancelAllTPSL 1.5
        [⟨7, Side.sell, PositionSide.long, OrderType.stopMarket, 2, 0, 99, false, none⟩,
         ⟨8, Side.sell, PositionSide.long, OrderType.limit, 1.5, 102, 0, true, some TimeInForce.gtc⟩]).2) := by
  refine ⟨by norm_num, ?_⟩
  have h := C10_selective_cancel 1.5
    [⟨7, Side.sell, PositionSide.long, OrderType.stopMarket, 2, 0, 99, false, none⟩,
     ⟨8, Side.sell, PositionSide.long, OrderType.limit, 1.5, 102, 0, true, some TimeInForce.gtc⟩]
    ⟨7, Side.sell, PositionSide.long, OrderType.stopMarket, 2, 0, 99, false, none⟩
    (by norm_num) (by simp)
  refine h.1.mpr ⟨by rfl, ?_⟩
  simp only [qtyMatches, decide_eq_false_iff_not, not_le]
  rw [show |(1.5 : ℚ)| = 1.5 from abs_of_nonneg (by norm_num),
    show |(2 : ℚ) - 1.5| = 0.5 from by rw [show (2:ℚ) - 1.5 = 0.5 by norm_num]; exact abs_of_nonneg (by norm_num)]
  norm_num

lemma monitorStep_eq_pos (mp : Option ℚ) (p : PositionRisk) (h : p.positionAmt ≠ 0)
    (hc : 200 ≤ updateMaxProfit1 mp p.unRealizedProfit ∧
      p.unRealizedProfit ≤ updateMaxProfit1 mp p.unRealizedProfit * (1 / 2)) :
    monitorStep mp p = (none, some (mkCloseOrder p.positionAmt)) := by
  simp only [monitorStep, if_neg h]
  exact if_pos hc

lemma monitorStep_eq_neg (mp : Option ℚ) (p : PositionRisk) (h : p.positionAmt ≠ 0)
    (hc : ¬(200 ≤ updateMaxProfit1 mp p.unRealizedProfit ∧
      p.unRealizedProfit ≤ updateMaxProfit1 mp p.unRealizedProfit * (1 / 2))) :
    monitorStep mp p = (some (updateMaxProfit1 mp p.unRealizedProfit), none) := by
  simp only [monitorStep, if_neg h]
  exact if_neg hc

lemma monitorTrace_fired (amt : ℚ) :
    ∀ (l : List ℚ) (mp : Option ℚ),
      (l.foldl (monitorTraceStep amt) (mp, true)).2 = true := by
  intro l
  induction l with
  | nil => intro mp; rfl
  | cons u t ih =>
    intro mp
    have he : monitorTraceStep amt (mp, true) u
        = ((monitorStep mp ⟨"SOLUSDC", amt, 0, u⟩).1, true) := by
      simp [monitorTraceStep]
    rw [List.foldl_cons, he]
    exact ih _

lemma monitorTrace_max (amt : ℚ) (h : amt ≠ 0) :
    ∀ (l : List ℚ) (M : ℚ),
      (l.foldl (monitorTraceStep amt) (some M, false)).2 = false →
      (l.foldl (monitorTraceStep amt) (some M, false)).1 = some (l.foldl max M) := by
  intro l
  induction l with
  | nil => intro M _; rfl
  | cons u t ih =>
    intro M hno
    have hm : updateMaxProfit1 (some M) u = max M u := by
      by_cases hc : M < u
      · simp [updateMaxProfit1, hc, max_eq_right (le_of_lt hc)]
      · simp [updateMaxProfit1, hc, max_eq_left (not_lt.mp hc)]
    by_cases hc : 200 ≤ updateMaxProfit1 (some M) u ∧
        u ≤ updateMaxProfit1 (some M) u * (1 / 2)
    · exfalso
      have hstep : monitorTraceStep amt (some M, false) u = (none, true) := by
        simp [monitorTraceStep,
          monitorStep_eq_pos (some M) ⟨"SOLUSDC", amt, 0, u⟩ h hc]
      rw [List.foldl_cons, hstep, monitorTrace_fired amt t none] at hno
      exact Bool.noConfusion hno
    · have hstep : monitorTraceStep amt (some M, false) u
          = (some (max M u), false) := by
        simp [monitorTraceStep,
          monitorStep_eq_neg (some M) ⟨"SOLUSDC", amt, 0, u⟩ h hc, hm]
    -- step to the new accumulator and recurse
      rw [List.foldl_cons, hstep] at hno
      rw [List.foldl_cons, hstep, List.foldl_cons]
      exact ih (max M u) hno

/-- Claim C2 (amended): under the presence-checked update of part_001, while
the position stays non-flat and the drawdown trigger does not fire — no
market close is issued at any step of the run — the stored maxProfit after
the observations equals the maximum unrealized PnL seen so far (hence is
non-decreasing); and a flat observation deletes the entry. -/
theorem C2_high_water_mark (amt : ℚ) (h : amt ≠ 0) (u : ℚ) (l : List ℚ)
    (hno : (runMonitorT amt (u :: l)).2 = false) :
    runMonitor amt (u :: l) = some (l.foldl max u) ∧
    (runMonitorT amt (u :: l)).1 = some (l.foldl max u) ∧
    (∀ (mp : Option ℚ) (p : PositionRisk), p.positionAmt = 0 →
      monitorStep mp p = (none, none)) := by
  have key : (runMonitorT amt (u :: l)).1 = some (l.foldl max u) := by
    by_cases hc : 200 ≤ updateMaxProfit1 none u ∧
        u ≤ updateMaxProfit1 none u * (1 / 2)
    · exfalso
      have hstep : monitorTraceStep amt (none, false) u = (none, true) := by
        simp [monitorTraceStep,
          monitorStep_eq_pos none ⟨"SOLUSDC", amt, 0, u⟩ h hc]
      unfold runMonitorT at hno
      rw [List.foldl_cons, hstep, monitorTrace_fired amt l none] at hno
      exact Bool.noConfusion hno
    · have hstep : monitorTraceStep amt (none, false) u = (some u, false) := by
        simp [monitorTraceStep,
          monitorStep_eq_neg none ⟨"SOLUSDC", amt, 0, u⟩ h hc, updateMaxProfit1]
      have hno' : (l.foldl (monitorTraceStep amt) (some u, false)).2 = false := by
        unfold runMonitorT at hno
        rw [List.foldl_cons, hstep] at hno
        exact hno
      unfold runMonitorT
      rw [List.foldl_cons, hstep]
      exact monitorTrace_max amt h l u hno'
  refine ⟨?_, key, ?_⟩
  · have agree : ∀ (t : List ℚ) (s : Option ℚ × Bool),
        (t.foldl (monitorTraceStep amt) s).1
          = t.foldl (fun mp v => (monitorStep mp ⟨"SOLUSDC", amt, 0, v⟩).1) s.1 := by
      intro t
      induction t with
      | nil => intro s; rfl
      | cons v t2 ih =>
        intro s
        rw [List.foldl_cons, List.foldl_cons, ih]
        rfl
    have := agree (u :: l) (none, false)
    unfold runMonitorT at key
    rw [this] at key
    exact key
  · intro mp p hp
    simp [monitorStep, hp]

/-- Witness for C2: observations 10, 5, 20 on a long position of size 1 never
fire the trigger and leave the stored maxProfit at 20, the maximum seen. -/
theorem C2_high_water_mark_w :
    runMonitor 1 [10, 5, 20] = some 20 ∧ (1 : ℚ) ≠ 0 ∧
    (runMonitorT 1 [10, 5, 20]).2 = false := by
  have hno : (runMonitorT 1 [10, 5, 20]).2 = false := by
    norm_num [runMonitorT, monitorTraceStep, monitorStep, updateMaxProfit1]
  have h := C2_high_water_mark 1 (by norm_num) 10 [5, 20] hno
  refine ⟨?_, by norm_num, hno⟩
  rw [h.1]
  norm_num [List.foldl, max_eq_right, max_eq_left]

/-- Counterexample for C2: the zero-sentinel update of part_000/002/003 lets
the stored maxProfit decrease — after observations 0 then -1 the entry holds
-1 although the maximum seen is 0 — and the part_001 monitor deletes the
entry while the position is still open once the drawdown trigger fires
(observations 300 then 140 leave no entry instead of the maximum 300). -/
theorem C2_cex :
    runMonitorZS [0, -1] = -1 ∧ ((-1 : ℚ) ≠ 0) ∧
    List.foldl max (0 : ℚ) [(-1 : ℚ)] = 0 ∧
    runMonitor 1 [300, 140] = none := by
  refine ⟨?_, by norm_num, ?_, ?_⟩
  · norm_num [runMonitorZS, updateMaxProfitZS]
  · norm_num [List.foldl, max_eq_left]
  · have h1 : (monitorStep none ⟨"SOLUSDC", 1, 0, 300⟩).1 = some 300 := by
      norm_num [monitorStep, updateMaxProfit1]
    have h2 : (monitorStep (some 300) ⟨"SOLUSDC", 1, 0, 140⟩).1 = none := by
      norm_num [monitorStep, updateMaxProfit1]
    simp only [runMonitor, List.foldl_cons, List.foldl_nil]
    rw [show (monitorStep none ⟨"SOLUSDC", 1, 0, 300⟩).1 = some 300 from h1, h2]

/-- Claim C3: the protective-exit monitor issues a market order on the
closing side for the full absQuantity and deletes the per-symbol maxProfit
state exactly when the updated high-water mark is at least 200 and the
current unrealized PnL is at most half of it. -/
theorem C3_drawdown_trigger (mp : Option ℚ) (p : PositionRisk) (h : p.positionAmt ≠ 0) :
    ((monitorStep mp p).2.isSome = true ↔
       (200 ≤ updateMaxProfit1 mp p.unRealizedProfit ∧
        p.unRealizedProfit ≤ updateMaxProfit1 mp p.unRealizedProfit * (1 / 2))) ∧
    ((200 ≤ updateMaxProfit1 mp p.unRealizedProfit ∧
        p.unRealizedProfit ≤ updateMaxProfit1 mp p.unRealizedProfit * (1 / 2)) →
      (monitorStep mp p).2 = some (mkCloseOrder p.positionAmt) ∧
      (monitorStep mp p).1 = none ∧
      (mkCloseOrder p.positionAmt).type = OrderType.market ∧
      (mkCloseOrder p.positionAmt).origQuantity = abs p.positionAmt ∧
      (0 < p.positionAmt → (mkCloseOrder p.positionAmt).side = Side.sell) ∧
      (p.positionAmt < 0 → (mkCloseOrder p.positionAmt).side = Side.buy)) ∧
    (¬(200 ≤ updateMaxProfit1 mp p.unRealizedProfit ∧
        p.unRealizedProfit ≤ updateMaxProfit1 mp p.unRealizedProfit * (1 / 2)) →
      (monitorStep mp p).2 = none ∧
      (monitorStep mp p).1 = some (updateMaxProfit1 mp p.unRealizedProfit)) := by
  by_cases hc : 200 ≤ updateMaxProfit1 mp p.unRealizedProfit ∧
      p.unRealizedProfit ≤ updateMaxProfit1 mp p.unRealizedProfit * (1 / 2)
  · have he := monitorStep_eq_pos mp p h hc
    refine ⟨by rw [he]; simpa using hc, fun _ => ?_, fun hn => absurd hc hn⟩
    refine ⟨by rw [he], by rw [he], rfl, rfl, ?_, ?_⟩
    · intro hpos
      simp [mkCloseOrder, not_lt.mpr (le_of_lt hpos)]
    · intro hneg
      simp [mkCloseOrder, hneg]
  · have he := monitorStep_eq_neg mp p h hc
    exact ⟨by rw [he]; simpa using hc, fun hyes => absurd hyes hc,
      fun _ => ⟨by rw [he], by rw [he]⟩⟩

/-- Witness for C3: with stored peak 300 and a new observation of 140 on a
long position of size 1, a market sell for quantity 1 is issued and the
state entry is deleted. -/
theorem C3_drawdown_trigger_w :
    (monitorStep (some 300) ⟨"SOLUSDC", 1, 100, 140⟩).2 = some (mkCloseOrder 1) ∧
    (monitorStep (some 300) ⟨"SOLUSDC", 1, 100, 140⟩).1 = none ∧
    (mkCloseOrder 1).side = Side.sell ∧ (mkCloseOrder 1).origQuantity = 1 := by
  have h := C3_drawdown_trigger (some 300) ⟨"SOLUSDC", 1, 100, 140⟩ (by norm_num)
  have hm : updateMaxProfit1 (some 300) (140 : ℚ) = 300 := by
    norm_num [updateMaxProfit1]
  have hc : (200 : ℚ) ≤ updateMaxProfit1 (some 300) 140 ∧
      (140 : ℚ) ≤ updateMaxProfit1 (some 300) 140 * (1 / 2) := by
    rw [hm]; norm_num
  obtain ⟨h2, h1, _, hq, hs, _⟩ := h.2.1 hc
  refine ⟨h2, h1, hs (by norm_num), ?_⟩
  rw [hq]
  norm_num

lemma abs_floor_half_sub (y : ℚ) : abs ((Int.floor (y + 1 / 2) : ℚ) - y) ≤ 1 / 2 := by
  have h1 : ((Int.floor (y + 1 / 2) : ℤ) : ℚ) ≤ y + 1 / 2 := Int.floor_le _
  have h2 : y + 1 / 2 - 1 < ((Int.floor (y + 1 / 2) : ℤ) : ℚ) := Int.sub_one_lt_floor _
  rw [abs_le]
  constructor <;> linarith

lemma abs_goRound_sub (x : ℚ) : abs ((goRound x : ℚ) - x) ≤ 1 / 2 := by
  unfold goRound
  by_cases hx : x < 0
  · rw [if_pos hx]
    have h := abs_floor_half_sub (-x)
    have e : ((-(Int.floor (-x + 1 / 2)) : ℤ) : ℚ) - x
        = -(((Int.floor (-x + 1 / 2) : ℤ) : ℚ) - (-x)) := by
      push_cast
      ring
    rw [e, abs_neg]
    exact h
  · rw [if_neg hx]
    exact abs_floor_half_sub x

lemma abs_roundToTickSize_sub (price : ℚ) :
    abs (roundToTickSize price (1 / 100) - price) ≤ 1 / 200 := by
  have h := abs_goRound_sub (price / (1 / 100))
  have e : roundToTickSize price (1 / 100) - price
      = ((goRound (price / (1 / 100)) : ℚ) - price / (1 / 100)) * (1 / 100) := by
    unfold roundToTickSize
    field_simp
    ring
  rw [e, abs_mul, abs_of_nonneg (by norm_num : (0 : ℚ) ≤ 1 / 100)]
  calc abs ((goRound (price / (1 / 100)) : ℚ) - price / (1 / 100)) * (1 / 100)
      ≤ (1 / 2) * (1 / 100) := mul_le_mul_of_nonneg_right h (by norm_num)
    _ = 1 / 200 := by norm_num

/-- Claim C4 (amended): every stop-loss or take-profit order the reconciler
places is on the closing side of the position, with stop price strictly
below entry and take-profit price strictly above entry for longs and the
reverse for shorts; the validity tests on resting orders, by contrast, do
not inspect side or price (see the counterexample). -/
theorem C4_placed_direction (amt entry : ℚ) :
    (0 < amt →
      (mkStopLossOrderR amt entry).side = Side.sell ∧
      (mkTakeProfitOrderR amt entry).side = Side.sell ∧
      (mkStopLossOrderR amt entry).stopPrice < entry ∧
      entry < (mkTakeProfitOrderR amt entry).price) ∧
    (amt < 0 →
      (mkStopLossOrderR amt entry).side = Side.buy ∧
      (mkTakeProfitOrderR amt entry).side = Side.buy ∧
      entry < (mkStopLossOrderR amt entry).stopPrice ∧
      (mkTakeProfitOrderR amt entry).price < entry) := by
  constructor
  · intro hpos
    have h1 := abs_le.mp (abs_roundToTickSize_sub (entry - 1))
    have h2 := abs_le.mp (abs_roundToTickSize_sub (entry + 2))
    refine ⟨?_, ?_, ?_, ?_⟩ <;>
      simp only [mkStopLossOrderR, mkTakeProfitOrderR, if_pos hpos]
    · linarith [h1.1, h1.2]
    · linarith [h2.1, h2.2]
  · intro hneg
    have hnp : ¬(0 < amt) := by linarith
    have h1 := abs_le.mp (abs_roundToTickSize_sub (entry + 1))
    have h2 := abs_le.mp (abs_roundToTickSize_sub (entry - 2))
    refine ⟨?_, ?_, ?_, ?_⟩ <;>
      simp only [mkStopLossOrderR, mkTakeProfitOrderR, if_neg hnp]
    · linarith [h1.1, h1.2]
    · linarith [h2.1, h2.2]

/-- Witness for C4: for a long of quantity 1 at entry 100 the placed legs are
both sell-side, with stop below 100 and take-profit above 100. -/
theorem C4_placed_direction_w :
    (mkStopLossOrderR 1 100).side = Side.sell ∧
    (mkTakeProfitOrderR 1 100).side = Side.sell ∧
    (mkStopLossOrderR 1 100).stopPrice < 100 ∧
    (100 : ℚ) < (mkTakeProfitOrderR 1 100).price := by
  have h := (C4_placed_direction 1 100).1 (by norm_num)
  exact ⟨h.1, h.2.1, h.2.2.1, h.2.2.2⟩

lemma qtyMatches_exact (q amt : ℚ) (h : q - abs amt = 0) : qtyMatches q amt = true := by
  simp only [qtyMatches, h, abs_zero, decide_eq_true_eq]
  norm_num

lemma positionChanged_self (p : PositionRisk) :
    positionChanged (some p) p.positionAmt p.entryPrice = false := by
  simp only [positionChanged, sub_self, abs_zero, Bool.or_eq_false_iff,
    decide_eq_false_iff_not, not_lt]
  constructor <;> norm_num

lemma reconcileOrders_no_change (lastPos : Option PositionRisk) (p : PositionRisk)
    (orders : List Order) (h : p.positionAmt ≠ 0)
    (hpc : positionChanged lastPos p.positionAmt p.entryPrice = false)
    (hsl : orders.any (isValidSL p.positionAmt) = true)
    (htp : orders.any (isValidTP p.positionAmt) = true) :
    reconcileOrders lastPos p orders = ⟨orders, [], []⟩ := by
  simp [reconcileOrders, h, hpc, hsl, htp]

/-- Counterexample for C4: for the long c4Position the reconciler accepts the
buy-side stop-market c4WrongSideStop — whose stop price 150 is above the
entry price 100 — as the valid stop-loss: the pass cancels nothing and
creates nothing, leaving the wrong-side order as the only stop leg. -/
theorem C4_cex :
    reconcileOrders (some c4Position) c4Position [c4WrongSideStop, c4RestingTP]
      = ⟨[c4WrongSideStop, c4RestingTP], [], []⟩ ∧
    c4WrongSideStop.side = Side.buy ∧
    0 < c4Position.positionAmt ∧
    c4Position.entryPrice < c4WrongSideStop.stopPrice := by
  have hq : qtyMatches (1 : ℚ) 1 = true := by
    apply qtyMatches_exact
    rw [abs_one]
    norm_num
  have hsl : [c4WrongSideStop, c4RestingTP].any (isValidSL c4Position.positionAmt) = true := by
    apply List.any_eq_true.mpr
    refine ⟨c4WrongSideStop, by simp, ?_⟩
    simp [isValidSL, c4WrongSideStop, c4Position, hq]
  have htp : [c4WrongSideStop, c4RestingTP].any (isValidTP c4Position.positionAmt) = true := by
    apply List.any_eq_true.mpr
    refine ⟨c4RestingTP, by simp, ?_⟩
    simp [isValidTP, c4RestingTP, c4Position, hq]
  refine ⟨?_, rfl, by norm_num [c4Position], by norm_num [c4Position, c4WrongSideStop]⟩
  exact reconcileOrders_no_change _ _ _ (by norm_num [c4Position])
    (positionChanged_self c4Position) hsl htp

/-- Claim C5: the placed stop-loss price is entry−1 for a long (entry+1 for a
short) and the take-profit price entry+2 for a long (entry−2 for a short),
each rounded to the 0.01 tick by rounding price/tick to the nearest integer
and multiplying back by the tick; sides, types, time-in-force and the
absolute quantity as in the scenario. -/
theorem C5_price_formula (amt entry : ℚ) :
    (0 < amt →
      (mkStopLossOrderR amt entry).type = OrderType.stopMarket ∧
      (mkStopLossOrderR amt entry).side = Side.sell ∧
      (mkStopLossOrderR amt entry).origQuantity = abs amt ∧
      (mkStopLossOrderR amt entry).stopPrice
        = (goRound ((entry - 1) / (1 / 100)) : ℚ) * (1 / 100) ∧
      (mkTakeProfitOrderR amt entry).type = OrderType.limit ∧
      (mkTakeProfitOrderR amt entry).side = Side.sell ∧
      (mkTakeProfitOrderR amt entry).tif = some TimeInForce.gtc ∧
      (mkTakeProfitOrderR amt entry).origQuantity = abs amt ∧
      (mkTakeProfitOrderR amt entry).price
        = (goRound ((entry + 2) / (1 / 100)) : ℚ) * (1 / 100)) ∧
    (amt < 0 →
      (mkStopLossOrderR amt entry).side = Side.buy ∧
      (mkStopLossOrderR amt entry).stopPrice
        = (goRound ((entry + 1) / (1 / 100)) : ℚ) * (1 / 100) ∧
      (mkTakeProfitOrderR amt entry).side = Side.buy ∧
      (mkTakeProfitOrderR amt entry).price
        = (goRound ((entry - 2) / (1 / 100)) : ℚ) * (1 / 100)) := by
  constructor
  · intro hpos
    refine ⟨?_, ?_, ?_, ?_, ?_, ?_, ?_, ?_, ?_⟩ <;>
      simp only [mkStopLossOrderR, mkTakeProfitOrderR, if_pos hpos] <;> try rfl
  · intro hneg
    have hnp : ¬(0 < amt) := by linarith
    refine ⟨?_, ?_, ?_, ?_⟩ <;>
      simp only [mkStopLossOrderR, mkTakeProfitOrderR, if_neg hnp] <;> try rfl

lemma goRound_eq_of_nonneg (x : ℚ) (n : ℤ) (h0 : 0 ≤ x)
    (h1 : (n : ℚ) ≤ x + 1 / 2) (h2 : x + 1 / 2 < n + 1) :
    goRound x = n := by
  rw [goRound, if_neg (not_lt.mpr h0)]
  exact Int.floor_eq_iff.mpr ⟨h1, h2⟩

/-- Witness for C5, the spec scenario: long of quantity 1 at entry 100 with
no resting orders yields a stop-market sell at 99.00 and a GTC limit sell at
102.00, both of quantity 1. -/
theorem C5_price_formula_w :
    (mkStopLossOrderR 1 100).stopPrice = 99 ∧
    (mkStopLossOrderR 1 100).side = Side.sell ∧
    (mkStopLossOrderR 1 100).type = OrderType.stopMarket ∧
    (mkStopLossOrderR 1 100).origQuantity = 1 ∧
    (mkTakeProfitOrderR 1 100).price = 102 ∧
    (mkTakeProfitOrderR 1 100).side = Side.sell ∧
    (mkTakeProfitOrderR 1 100).type = OrderType.limit ∧
    (mkTakeProfitOrderR 1 100).tif = some TimeInForce.gtc ∧
    (mkTakeProfitOrderR 1 100).origQuantity = 1 := by
  obtain ⟨ht, hs, hq, hsp, ht2, hs2, htif, hq2, hp⟩ :=
    (C5_price_formula 1 100).1 (by norm_num)
  have hg1 : goRound (((100 : ℚ) - 1) / (1 / 100)) = 9900 := by
    apply goRound_eq_of_nonneg
    · norm_num
    · push_cast; norm_num
    · push_cast; norm_num
  have hg2 : goRound (((100 : ℚ) + 2) / (1 / 100)) = 10200 := by
    apply goRound_eq_of_nonneg
    · norm_num
    · push_cast; norm_num
    · push_cast; norm_num
  refine ⟨?_, hs, ht, ?_, ?_, hs2, ht2, htif, ?_⟩
  · rw [hsp, hg1]; norm_num
  · rw [hq, abs_one]
  · rw [hp, hg2]; norm_num
  · rw [hq2, abs_one]

lemma mkSL3_fields (amt entry : ℚ) :
    (mkStopLossOrder3 amt entry).type = OrderType.stopMarket ∧
    (mkStopLossOrder3 amt entry).origQuantity = abs amt := by
  unfold mkStopLossOrder3
  split <;> exact ⟨rfl, rfl⟩

lemma mkTP3_fields (amt entry : ℚ) :
    (mkTakeProfitOrder3 amt entry).type = OrderType.limit ∧
    (mkTakeProfitOrder3 amt entry).origQuantity = abs amt := by
  unfold mkTakeProfitOrder3
  split <;> exact ⟨rfl, rfl⟩

lemma reconcileOrders_empty (lastPos : Option PositionRisk) (p : PositionRisk)
    (h : p.positionAmt ≠ 0) :
    reconcileOrders lastPos p []
      = ⟨[mkStopLossOrder3 p.positionAmt p.entryPrice,
          mkTakeProfitOrder3 p.positionAmt p.entryPrice],
         [mkStopLossOrder3 p.positionAmt p.entryPrice,
          mkTakeProfitOrder3 p.positionAmt p.entryPrice], []⟩ := by
  cases hc : positionChanged lastPos p.positionAmt p.entryPrice <;>
    simp [reconcileOrders, h, hc, cancelAllTPSL]

/-- Claim C1 (amended): for a non-flat position with no resting orders the
reconciliation pass creates exactly one stop-loss (stop-market) and exactly
one take-profit (limit) order, each of quantity exactly absQuantity (hence
within the 0.0001 tolerance), and no other orders; pre-existing protective
orders of matching quantity are all retained by the pass, so the
exactly-one form of the invariant fails in general (see the
counterexample). -/
theorem C1_coverage_from_empty (lastPos : Option PositionRisk) (p : PositionRisk)
    (h : p.positionAmt ≠ 0) :
    (reconcileOrders lastPos p []).finalOrders
      = [mkStopLossOrder3 p.positionAmt p.entryPrice,
         mkTakeProfitOrder3 p.positionAmt p.entryPrice] ∧
    countType OrderType.stopMarket (reconcileOrders lastPos p []).finalOrders = 1 ∧
    countType OrderType.limit (reconcileOrders lastPos p []).finalOrders = 1 ∧
    countType OrderType.market (reconcileOrders lastPos p []).finalOrders = 0 ∧
    (∀ o ∈ (reconcileOrders lastPos p []).finalOrders,
      o.origQuantity = abs p.positionAmt ∧
      qtyMatches o.origQuantity p.positionAmt = true) := by
  have he := reconcileOrders_empty lastPos p h
  have hsl := mkSL3_fields p.positionAmt p.entryPrice
  have htp := mkTP3_fields p.positionAmt p.entryPrice
  rw [he]
  refine ⟨rfl, ?_, ?_, ?_, ?_⟩
  · simp [countType, hsl.1, htp.1]
  · simp [countType, hsl.1, htp.1]
  · simp [countType, hsl.1, htp.1]
  · intro o ho
    simp only [List.mem_cons, List.not_mem_nil, or_false] at ho
    have hq : o.origQuantity = abs p.positionAmt := by
      rcases ho with rfl | rfl
      · exact hsl.2
      · exact htp.2
    refine ⟨hq, qtyMatches_exact _ _ (by rw [hq]; ring)⟩

/-- Witness for C1: a long of quantity 1 at entry 100 with no resting orders
ends with exactly one stop-market and one limit order. -/
theorem C1_coverage_from_empty_w :
    ((1 : ℚ) ≠ 0) ∧
    countType OrderType.stopMarket
      (reconcileOrders none ⟨"SOLUSDC", 1, 100, 0⟩ []).finalOrders = 1 ∧
    countType OrderType.limit
      (reconcileOrders none ⟨"SOLUSDC", 1, 100, 0⟩ []).finalOrders = 1 ∧
    countType OrderType.market
      (reconcileOrders none ⟨"SOLUSDC", 1, 100, 0⟩ []).finalOrders = 0 := by
  have h := C1_coverage_from_empty none ⟨"SOLUSDC", 1, 100, 0⟩ (by norm_num)
  exact ⟨by norm_num, h.2.1, h.2.2.1, h.2.2.2.1⟩

/-- Counterexample for C1: with two duplicate stop-market orders of matching
quantity already resting, the pass keeps both and creates nothing, so the
resulting order set for the symbol holds two stop-loss orders of quantity
absQuantity, not exactly one. -/
theorem C1_cex :
    reconcileOrders (some c1Position) c1Position [c1StopA, c1StopB, c1TakeProfit]
      = ⟨[c1StopA, c1StopB, c1TakeProfit], [], []⟩ ∧
    countType OrderType.stopMarket [c1StopA, c1StopB, c1TakeProfit] = 2 ∧
    c1Position.positionAmt ≠ 0 ∧
    qtyMatches c1StopA.origQuantity c1Position.positionAmt = true ∧
    qtyMatches c1StopB.origQuantity c1Position.positionAmt = true := by
  have hq : qtyMatches (1 : ℚ) 1 = true := by
    apply qtyMatches_exact
    rw [abs_one]
    norm_num
  have hsl : [c1StopA, c1StopB, c1TakeProfit].any (isValidSL c1Position.positionAmt) = true := by
    apply List.any_eq_true.mpr
    exact ⟨c1StopA, by simp, by simp [isValidSL, c1StopA, c1Position, hq]⟩
  have htp : [c1StopA, c1StopB, c1TakeProfit].any (isValidTP c1Position.positionAmt) = true := by
    apply List.any_eq_true.mpr
    exact ⟨c1TakeProfit, by simp, by simp [isValidTP, c1TakeProfit, c1Position, hq]⟩
  refine ⟨reconcileOrders_no_change _ _ _ (by norm_num [c1Position])
      (positionChanged_self c1Position) hsl htp, rfl, by norm_num [c1Position],
      hq, hq⟩

/-- Claim C6 (amended): in the joint placement pass of part_002/part_003 the
stop-loss leg is always attempted first, and a take-profit placement failure
neither suppresses the stop-loss nor goes unreported; but a stop-loss
placement failure aborts the pass before the take-profit leg (see the
counterexample). In the part_001 loop, where the legs are reconciled by
separate calls, each call's failure is only logged and the remaining calls
are still made in the same tick. -/
theorem C6_leg_independence :
    (∀ hasValidStopLoss hasValidTakeProfit slFails tpFails : Bool,
      (hasValidStopLoss && hasValidTakeProfit) = false →
        (placeBothLegs hasValidStopLoss hasValidTakeProfit slFails tpFails).slAttempted
          = true ∧
        (slFails = false →
          (placeBothLegs hasValidStopLoss hasValidTakeProfit slFails tpFails).tpAttempted
            = true) ∧
        (slFails = false → tpFails = true →
          (placeBothLegs hasValidStopLoss hasValidTakeProfit slFails tpFails).err.isSome
            = true)) ∧
    (∀ monitorErr tpErr slErr : Option String,
      (part1RunTick monitorErr tpErr slErr).tpAttempted = true ∧
      (part1RunTick monitorErr tpErr slErr).slAttempted = true ∧
      (∀ e, tpErr = some e → e ∈ (part1RunTick monitorErr tpErr slErr).logged)) := by
  constructor
  · intro a b c d hab
    cases a <;> cases b <;> cases c <;> cases d <;> simp_all [placeBothLegs]
  · intro m t s
    refine ⟨rfl, rfl, ?_⟩
    intro e he
    subst he
    simp [part1RunTick]

/-- Witness for C6: with the stop-loss leg missing and the take-profit create
failing, the stop-loss is attempted, the take-profit is attempted, and the
failure is reported; in the part_001 tick the take-profit error is logged
while both legs run. -/
theorem C6_leg_independence_w :
    (placeBothLegs false true false true).slAttempted = true ∧
    (placeBothLegs false true false true).tpAttempted = true ∧
    (placeBothLegs false true false true).err.isSome = true ∧
    (part1RunTick none (some "create take-profit failed") none).slAttempted = true ∧
    "create take-profit failed"
      ∈ (part1RunTick none (some "create take-profit failed") none).logged := by
  have h := C6_leg_independence
  obtain ⟨hsl, htp, herr⟩ := h.1 false true false true (by rfl)
  obtain ⟨_, hsl2, hlog⟩ := h.2 none (some "create take-profit failed") none
  exact ⟨hsl, htp rfl, herr rfl rfl, hsl2, hlog _ rfl⟩

/-- Counterexample for C6: in the joint pass with both legs missing, a venue
error on the stop-loss create leaves the take-profit leg unattempted in the
same pass; the failure is reported. -/
theorem C6_cex :
    (placeBothLegs false false true false).tpAttempted = false ∧
    (placeBothLegs false false true false).slAttempted = true ∧
    (placeBothLegs false false true false).err = some "create stop-loss failed" := by
  exact ⟨rfl, rfl, rfl⟩

lemma getPosition_stale (s : CacheState) (sym : String) (now : ℚ)
    (gw : Except String (List PositionRisk)) (h : cacheFresh s sym now = false) :
    getPosition s sym now gw = getPositionFetch s sym now gw := by
  unfold getPosition
  rcases hp : s.lastPosition sym with _ | lp <;>
    rcases hu : s.lastUpdate sym with _ | lu
  · rfl
  · rfl
  · rfl
  · have he : cacheFresh s sym now = decide (now - lu < 5) := by
      unfold cacheFresh
      rw [hp, hu]
    rw [he] at h
    simp only [decide_eq_false_iff_not] at h
    exact if_neg h

/-- Claim C7 (amended): a cache entry younger than 5 seconds is returned
without a gateway call and without touching the cache; on a stale cache,
when the symbol is absent from the gateway listing, a flat position is
synthesized and stored with the current timestamp but the call itself
returns the "position not found" error rather than the flat position — only
a follow-up call within 5 seconds returns the cached flat position without
error. -/
theorem C7_cache_behavior (s : CacheState) (sym : String) (now : ℚ)
    (gw : Except String (List PositionRisk)) :
    (∀ lp lu, s.lastPosition sym = some lp → s.lastUpdate sym = some lu →
      now - lu < 5 → getPosition s sym now gw = ⟨Except.ok lp, s, false⟩) ∧
    (∀ ps, cacheFresh s sym now = false → gw = Except.ok ps →
      (∀ p ∈ ps, (p.symbol == sym) = false) →
      getPosition s sym now gw
        = ⟨Except.error "position not found",
           storeCache s sym (flatPosition sym) now, true⟩ ∧
      (∀ (now2 : ℚ) (gw2 : Except String (List PositionRisk)), now2 - now < 5 →
        getPosition (storeCache s sym (flatPosition sym) now) sym now2 gw2
          = ⟨Except.ok (flatPosition sym),
             storeCache s sym (flatPosition sym) now, false⟩)) := by
  constructor
  · intro lp lu hp hu hfresh
    unfold getPosition
    rw [hp, hu]
    exact if_pos hfresh
  · intro ps hstale hgw habs
    have hfind : ps.find? (fun p => p.symbol == sym) = none := by
      apply List.find?_eq_none.mpr
      intro p hp
      simp [habs p hp]
    constructor
    · rw [getPosition_stale s sym now gw hstale, hgw]
      unfold getPositionFetch
      simp only [hfind]
    · intro now2 gw2 h2
      have h1 : (storeCache s sym (flatPosition sym) now).lastPosition sym
          = some (flatPosition sym) := by
        simp [storeCache]
      have h1' : (storeCache s sym (flatPosition sym) now).lastUpdate sym
          = some now := by
        simp [storeCache]
      unfold getPosition
      rw [h1, h1']
      exact if_pos h2

/-- Witness for C7: an empty cache, a gateway listing without the symbol —
the call stores the flat position, returns the error, and a second call one
second later returns the flat position from cache with no gateway call. -/
theorem C7_cache_behavior_w :
    getPosition emptyCache "SOLUSDC" 0 (Except.ok [])
      = ⟨Except.error "position not found",
         storeCache emptyCache "SOLUSDC" (flatPosition "SOLUSDC") 0, true⟩ ∧
    getPosition (storeCache emptyCache "SOLUSDC" (flatPosition "SOLUSDC") 0)
        "SOLUSDC" 1 (Except.ok [])
      = ⟨Except.ok (flatPosition "SOLUSDC"),
         storeCache emptyCache "SOLUSDC" (flatPosition "SOLUSDC") 0, false⟩ := by
  have h := (C7_cache_behavior emptyCache "SOLUSDC" 0 (Except.ok [])).2 []
    rfl rfl (by intro p hp; simp at hp)
  exact ⟨h.1, h.2 1 (Except.ok []) (by norm_num)⟩

/-- Counterexample for C7: on an empty cache with the symbol absent from the
listing, getPosition returns the "position not found" error, not the
synthesized flat position (which it nevertheless stores in the cache). -/
theorem C7_cex :
    (getPosition emptyCache "SOLUSDC" 0 (Except.ok [])).result
      = Except.error "position not found" ∧
    (getPosition emptyCache "SOLUSDC" 0 (Except.ok [])).cache.lastPosition "SOLUSDC"
      = some (flatPosition "SOLUSDC") := by
  constructor
  · rfl
  · simp [getPosition, emptyCache, getPositionFetch, storeCache]

/-- Claim C8: when the gateway position-risk call fails inside getPosition
(on a stale cache, the only case in which the gateway is consulted), the
lastPosition and lastUpdate maps are left completely unchanged and the
gateway error is propagated to the caller. -/
theorem C8_gateway_failure (s : CacheState) (sym : String) (now : ℚ) (e : String)
    (h : cacheFresh s sym now = false) :
    getPosition s sym now (Except.error e) = ⟨Except.error e, s, true⟩ := by
  rw [getPosition_stale s sym now (Except.error e) h]
  rfl

/-- Witness for C8: an empty cache and a failing gateway — the error comes
back and the cache is the same empty cache. -/
theorem C8_gateway_failure_w :
    getPosition emptyCache "SOLUSDC" 0 (Except.error "network down")
      = ⟨Except.error "network down", emptyCache, true⟩ :=
  C8_gateway_failure emptyCache "SOLUSDC" 0 "network down" rfl

/-- Claim C9: when the parsed position quantity is exactly zero, SetStopLoss
and SetTakeProfit return nil without issuing any order-creation call to the
venue. -/
theorem C9_zero_qty_noop (amt stopPrice price : ℚ)
    (venue : Order → Except String Unit) (h : amt = 0) :
    setStopLoss amt stopPrice venue = (none, Except.ok ()) ∧
    setTakeProfit amt price venue = (none, Except.ok ()) := by
  constructor <;> simp [setStopLoss, setTakeProfit, h]

/-- Witness for C9: quantity 0 with any venue behavior yields no order and a
nil error for both calls. -/
theorem C9_zero_qty_noop_w :
    setStopLoss 0 99 (fun _ => Except.error "should not be called")
      = (none, Except.ok ()) ∧
    setTakeProfit 0 102 (fun _ => Except.error "should not be called")
      = (none, Except.ok ()) :=
  C9_zero_qty_noop 0 99 102 (fun _ => Except.error "should not be called") rfl

end Protect
